import Mathlib

/-!
Verification development for the BMP280 pressure-sensor driver
(`src/bmp280/bmp280.py`).  The Python source is shallowly embedded:
Python `int` is `ℤ` (arbitrary precision), `>>` is arithmetic (floor)
shift, `<<` is exact multiplication by a power of two, and the single
floating-point true division `int(x / y)` on line 271 is modelled by a
correctly-rounded binary64 division followed by truncation toward zero,
exactly as CPython computes it for (big) integer operands.
-/

namespace BMP280

/-- Python `a >> n` on `int`: arithmetic shift, i.e. floor division by `2^n`. -/
def pyShr (a : ℤ) (n : ℕ) : ℤ := Int.fdiv a (2 ^ n)

/-- Python `a << n` on `int`: exact multiplication by `2^n` (no wraparound). -/
def pyShl (a : ℤ) (n : ℕ) : ℤ := a * 2 ^ n

/-- Fuelled floor of `log2`: `log2f fuel n = ⌊log2 n⌋` for `1 ≤ n < 2 ^ fuel`.
The fuel makes the definition structurally recursive so that it reduces
inside the kernel. -/
def log2f : ℕ → ℕ → ℕ
  | 0, _ => 0
  | fuel + 1, n => if n < 2 then 0 else log2f fuel (n / 2) + 1

/-- Scale the positive fraction `n / d` by `2 ^ (-e)`, staying in `ℕ × ℕ`:
returns `(num, den)` with `num / den = n / (d * 2 ^ e)`. -/
def fdScaled (n d : ℕ) (e : ℤ) : ℕ × ℕ :=
  if 0 ≤ e then (n, d * 2 ^ e.toNat) else (n * 2 ^ (-e).toNat, d)

/-- Round the positive rational `n / d` (with `n, d > 0`) to the nearest
binary64 significand: returns `(m, e)` with `2^52 ≤ m ≤ 2^53` and
`m * 2 ^ e` the value of the IEEE-754 double nearest to `n / d`
(ties to even), for magnitudes inside the normal double range. -/
def fdRound (n d : ℕ) : ℕ × ℤ :=
  let e0 : ℤ := (log2f 1100 n : ℤ) - (log2f 1100 d : ℤ) - 52
  let s0 := fdScaled n d e0
  let e : ℤ := if s0.1 / s0.2 < 2 ^ 52 then e0 - 1 else e0
  let s := fdScaled n d e
  let q := s.1 / s.2
  let r := s.1 - q * s.2
  let m : ℕ := if s.2 < 2 * r then q + 1 else if 2 * r < s.2 then q else q + q % 2
  (m, e)

/-- CPython `int(a / b)` for integer `a`, `b` with `b ≠ 0`: true division
producing the correctly rounded (round-to-nearest, ties-to-even) IEEE-754
double of the exact quotient, then truncation toward zero.  Used to model
line 271 of the source, whose division `/` is float division, not `//`;
the call site guarantees `b ≠ 0` (the `var1 == 0` branch) and a quotient
far inside the normal double range. -/
def pyIntTrueDiv (a b : ℤ) : ℤ :=
  if a = 0 then 0
  else
    let me := fdRound a.natAbs b.natAbs
    let v : ℕ := if 0 ≤ me.2 then me.1 * 2 ^ me.2.toNat else me.1 >>> (-me.2).toNat
    if (a < 0 ∧ 0 < b) ∨ (0 < a ∧ b < 0) then -(v : ℤ) else (v : ℤ)

/-- The exact truncating integer division the specification prescribes for
line 271 (`// toward zero`); stated from the spec's words for comparison
with the source's `pyIntTrueDiv`-based behaviour. -/
def exactTruncDiv (a b : ℤ) : ℤ := Int.tdiv a b

example : pyIntTrueDiv 3944285864554787500 597560748 = 6600644165 := by decide
example : pyIntTrueDiv 7 2 = 3 := by decide
example : pyIntTrueDiv (-7) 2 = -3 := by decide

/-! ## Data model -/

/-- Error values a driver call can raise (Python exceptions relevant to the
embedded methods): `valueError` for the explicit `raise ValueError` range
checks, `typeError` for arithmetic on a still-`None` attribute. -/
inductive PyErr where
  | valueError
  | typeError
deriving DecidableEq, Repr

/-- The twelve calibration coefficients (source lines 98-109 name them
`dig_T1 .. dig_P9`), as plain integers once loaded. -/
structure Calib where
  dig_T1 : ℤ
  dig_T2 : ℤ
  dig_T3 : ℤ
  dig_P1 : ℤ
  dig_P2 : ℤ
  dig_P3 : ℤ
  dig_P4 : ℤ
  dig_P5 : ℤ
  dig_P6 : ℤ
  dig_P7 : ℤ
  dig_P8 : ℤ
  dig_P9 : ℤ
deriving DecidableEq, Repr

/-- The mutable attributes of a `BMP280` instance that the compensation
methods touch: each `dig_*` coefficient and `t_fine`, all initialized to
`None` by `__init__` (lines 69-81), hence `Option ℤ`. -/
structure DriverState where
  dig_T1 : Option ℤ
  dig_T2 : Option ℤ
  dig_T3 : Option ℤ
  dig_P1 : Option ℤ
  dig_P2 : Option ℤ
  dig_P3 : Option ℤ
  dig_P4 : Option ℤ
  dig_P5 : Option ℤ
  dig_P6 : Option ℤ
  dig_P7 : Option ℤ
  dig_P8 : Option ℤ
  dig_P9 : Option ℤ
  t_fine : Option ℤ
deriving DecidableEq, Repr

/-- The state `__init__` leaves behind (lines 69-81): every coefficient and
`t_fine` is `None`. -/
def initState : DriverState :=
  ⟨none, none, none, none, none, none, none, none, none, none, none, none, none⟩

/-- A fully loaded state: all twelve coefficients populated from `c` (as
`read_calib` does) and `t_fine` as given. -/
def mkState (c : Calib) (tf : Option ℤ) : DriverState :=
  ⟨some c.dig_T1, some c.dig_T2, some c.dig_T3, some c.dig_P1, some c.dig_P2,
   some c.dig_P3, some c.dig_P4, some c.dig_P5, some c.dig_P6, some c.dig_P7,
   some c.dig_P8, some c.dig_P9, tf⟩

/-- Reading an attribute for arithmetic: a `None` value raises `TypeError`
(Python: unsupported operand type for the arithmetic operator). -/
def getI : Option ℤ → Except PyErr ℤ
  | some v => Except.ok v
  | none => Except.error PyErr.typeError

/-! ## Compensation pipeline (source lines 247-275) -/

/-- `compensate_temp` (lines 247-254): computes `var1`, `var2`, stores
`t_fine = var1 + var2` on the instance, and returns the temperature in
hundredths of a degree Celsius (the source then returns
`float(temp / 100)`, i.e. the value `temp / 100` °C). -/
def compensate_temp (s : DriverState) (raw_temp : ℤ) :
    Except PyErr (ℤ × DriverState) := do
  let t1 ← getI s.dig_T1
  let t2 ← getI s.dig_T2
  let t3 ← getI s.dig_T3
  let var1 := pyShr ((pyShr raw_temp 3 - pyShl t1 1) * t2) 11
  let var2 := pyShr (pyShr ((pyShr raw_temp 4 - t1) * (pyShr raw_temp 4 - t1)) 12 * t3) 14
  let tf := var1 + var2
  let temp := pyShr (tf * 5 + 128) 8
  pure (temp, { s with t_fine := some tf })

/-- The denominator `var1` of `compensate_press` after lines 261, 265-266. -/
def press_var1 (dig_P1 dig_P2 dig_P3 t_fine : ℤ) : ℤ :=
  let v := t_fine - 128000
  let var1 := pyShr (v * v * dig_P3) 8 + pyShl (v * dig_P2) 12
  pyShr ((pyShl 1 47 + var1) * dig_P1) 33

/-- The value `var2` of `compensate_press` after lines 261-264. -/
def press_var2 (dig_P4 dig_P5 dig_P6 t_fine : ℤ) : ℤ :=
  let v := t_fine - 128000
  v * v * dig_P6 + pyShl (v * dig_P5) 17 + pyShl dig_P4 35

/-- The intermediate pressure of lines 270-271:
`press = int((((1048576 - raw_press) << 31) - var2) * 3125 / var1)` —
note the `/` is Python float true division, then `int(...)` truncates. -/
def press_p_mid (var1 var2 raw_press : ℤ) : ℤ :=
  pyIntTrueDiv ((pyShl (1048576 - raw_press) 31 - var2) * 3125) var1

/-- What the specification prescribes for lines 270-271: the exact
quotient truncated toward zero, with no float rounding. -/
def press_p_spec (var1 var2 raw_press : ℤ) : ℤ :=
  exactTruncDiv ((pyShl (1048576 - raw_press) 31 - var2) * 3125) var1

/-- Lines 272-274: the final pressure in Q24.8 (Pa·256) from the
intermediate `press`. -/
def press_final (dig_P7 dig_P8 dig_P9 press : ℤ) : ℤ :=
  let var1 := pyShr (dig_P9 * pyShr press 13 * pyShr press 13) 25
  let var2 := pyShr (dig_P8 * press) 19
  pyShr (press + var1 + var2) 8 + pyShl dig_P7 4

/-- `compensate_press` (lines 256-275): uses the stored `t_fine` (line 261)
and `dig_P1..dig_P9`; when `var1 == 0` returns pressure 0 (lines 267-268),
otherwise runs lines 270-274.  The returned integer is the pressure in
Pa·256 (the source returns `float(press / 256)`); the instance state is
unchanged. -/
def compensate_press (s : DriverState) (raw_press : ℤ) :
    Except PyErr (ℤ × DriverState) := do
  let tf ← getI s.t_fine
  let p1 ← getI s.dig_P1
  let p2 ← getI s.dig_P2
  let p3 ← getI s.dig_P3
  let p4 ← getI s.dig_P4
  let p5 ← getI s.dig_P5
  let p6 ← getI s.dig_P6
  let p7 ← getI s.dig_P7
  let p8 ← getI s.dig_P8
  let p9 ← getI s.dig_P9
  let var1 := press_var1 p1 p2 p3 tf
  let var2 := press_var2 p4 p5 p6 tf
  if var1 = 0 then
    pure (0, s)
  else
    pure (press_final p7 p8 p9 (press_p_mid var1 var2 raw_press), s)

/-- Datasheet example calibration set (spec §8 known-vector scenario). -/
def dsCalib : Calib :=
  ⟨27504, 26435, -1000, 36477, -10685, 3024, 2855, 140, -7, 15500, -14600, 6000⟩

/-- Equality of `Except` results is decidable componentwise; used to settle
concrete driver-call results with `decide`. -/
instance instDecEqExcept {ε α : Type} [DecidableEq ε] [DecidableEq α] :
    DecidableEq (Except ε α)
  | Except.ok a, Except.ok b =>
    if h : a = b then isTrue (by rw [h]) else isFalse (by intro hc; cases hc; exact h rfl)
  | Except.error e, Except.error f =>
    if h : e = f then isTrue (by rw [h]) else isFalse (by intro hc; cases hc; exact h rfl)
  | Except.ok _, Except.error _ => isFalse (by intro hc; cases hc)
  | Except.error _, Except.ok _ => isFalse (by intro hc; cases hc)

example : compensate_temp (mkState dsCalib none) 519888 =
    Except.ok (2508, mkState dsCalib (some 128422)) := by decide
example : compensate_press (mkState dsCalib (some 128422)) 415148 =
    Except.ok (25767233, mkState dsCalib (some 128422)) := by decide

/-! ## Register layer (source lines 11-24, 154-245) -/

/-- Device I2C address (line 11). -/
def BMP280_I2C_ADDR : ℕ := 0x76

/-- Control register address (line 17). -/
def CTRL_MEAS : ℕ := 0xF4

/-- Config register address (line 18). -/
def CONFIG : ℕ := 0xF5

/-- Pressure MSB register address (line 19). -/
def PRESS_MSB : ℕ := 0xF7

/-- Temperature MSB register address (line 22). -/
def TEMP_MSB : ℕ := 0xFA

/-- Sleep mode code (line 43). -/
def SLEEP_MODE : ℤ := 0b00

/-- Forced mode code (line 44). -/
def FORCED_MODE : ℤ := 0b01

/-- Normal mode code (line 45). -/
def NORMAL_MODE : ℤ := 0b11

/-- Transport activity: the two SC18IM700 primitives the driver invokes
(`write_i2c` with a payload, `read_i2c` of a byte count). -/
inductive Ev where
  | i2cWrite (addr : ℕ) (data : List ℕ)
  | i2cRead (addr : ℕ) (size : ℕ)
deriving DecidableEq, Repr

/-- The device-side register contents the embedded methods read or write:
the `ctrl_meas` and `config` register bytes and the 3-byte (24-bit,
big-endian-assembled) measurement register blocks at `PRESS_MSB` and
`TEMP_MSB`. -/
structure Device where
  ctrl_meas : ℕ
  config : ℕ
  press_bytes : ℕ
  temp_bytes : ℕ
deriving DecidableEq, Repr

/-- The control-register byte `write_ctrl_meas` builds on line 176:
`(osrs_p << 5) | (osrs_p << 2) | (mode << 0)` — NB the source shifts
`osrs_p`, not `osrs_t`, into bits 7:5; the validated `osrs_t` argument is
never packed.  Arguments are in range after the line 170-175 checks, so
`toNat` is exact. -/
def ctrl_meas_pack (osrs_t osrs_p mode : ℤ) : ℕ :=
  (osrs_p.toNat <<< 5) ||| (osrs_p.toNat <<< 2) ||| (mode.toNat <<< 0)

/-- The decoding `read_ctrl_meas` applies to the register byte
(lines 162-164). -/
def ctrl_meas_unpack (value : ℕ) : ℕ × ℕ × ℕ :=
  ((value &&& 0xE0) >>> 5, (value &&& 0x1C) >>> 2, (value &&& 0x03) >>> 0)

/-- The config-register byte `write_config` builds on line 222:
`(t_sb << 5) | (filter << 2) | (int(spi3w_en) << 0)`. -/
def config_pack (t_sb filter : ℤ) (spi3w_en : Bool) : ℕ :=
  (t_sb.toNat <<< 5) ||| (filter.toNat <<< 2) ||| ((cond spi3w_en 1 0) <<< 0)

/-- The decoding `read_config` applies to the register byte
(lines 210-212). -/
def config_unpack (value : ℕ) : ℕ × ℕ × ℕ :=
  ((value &&& 0xE0) >>> 5, (value &&& 0x1C) >>> 2, (value &&& 0x01) >>> 0)

/-- `read_ctrl_meas` (lines 154-165): pointer write, 1-byte read, decode. -/
def read_ctrl_meas (d : Device) : (ℕ × ℕ × ℕ) × List Ev :=
  (ctrl_meas_unpack d.ctrl_meas,
   [Ev.i2cWrite BMP280_I2C_ADDR [CTRL_MEAS], Ev.i2cRead BMP280_I2C_ADDR 1])

/-- `write_ctrl_meas` (lines 167-179): validates `osrs_t`, `osrs_p` in
`[0,7]` and `mode` in `[0,3]` (raising `ValueError` before any transport
call), then writes the packed byte to the control register. -/
def write_ctrl_meas (d : Device) (osrs_t osrs_p mode : ℤ) :
    Except PyErr Device × List Ev :=
  if osrs_t < 0 ∨ 7 < osrs_t then (Except.error PyErr.valueError, [])
  else if osrs_p < 0 ∨ 7 < osrs_p then (Except.error PyErr.valueError, [])
  else if mode < 0 ∨ 3 < mode then (Except.error PyErr.valueError, [])
  else
    (Except.ok { d with ctrl_meas := ctrl_meas_pack osrs_t osrs_p mode },
     [Ev.i2cWrite BMP280_I2C_ADDR [CTRL_MEAS, ctrl_meas_pack osrs_t osrs_p mode]])

/-- `read_config` (lines 202-213). -/
def read_config (d : Device) : (ℕ × ℕ × ℕ) × List Ev :=
  (config_unpack d.config,
   [Ev.i2cWrite BMP280_I2C_ADDR [CONFIG], Ev.i2cRead BMP280_I2C_ADDR 1])

/-- `write_config` (lines 215-225): validates `t_sb`, `filter` in `[0,7]`
(raising `ValueError` before any transport call), then writes the packed
byte to the config register. -/
def write_config (d : Device) (t_sb filter : ℤ) (spi3w_en : Bool) :
    Except PyErr Device × List Ev :=
  if t_sb < 0 ∨ 7 < t_sb then (Except.error PyErr.valueError, [])
  else if filter < 0 ∨ 7 < filter then (Except.error PyErr.valueError, [])
  else
    (Except.ok { d with config := config_pack t_sb filter spi3w_en },
     [Ev.i2cWrite BMP280_I2C_ADDR [CONFIG, config_pack t_sb filter spi3w_en]])

/-- `sleep_mode` (lines 181-186): read current fields, substitute the mode,
rewrite through `write_ctrl_meas`. -/
def sleep_mode (d : Device) : Except PyErr Device × List Ev :=
  let r := read_ctrl_meas d
  let w := write_ctrl_meas d (Int.ofNat r.1.1) (Int.ofNat r.1.2.1) SLEEP_MODE
  (w.1, r.2 ++ w.2)

/-- `forced_mode` (lines 188-193). -/
def forced_mode (d : Device) : Except PyErr Device × List Ev :=
  let r := read_ctrl_meas d
  let w := write_ctrl_meas d (Int.ofNat r.1.1) (Int.ofNat r.1.2.1) FORCED_MODE
  (w.1, r.2 ++ w.2)

/-- `normal_mode` (lines 195-200). -/
def normal_mode (d : Device) : Except PyErr Device × List Ev :=
  let r := read_ctrl_meas d
  let w := write_ctrl_meas d (Int.ofNat r.1.1) (Int.ofNat r.1.2.1) NORMAL_MODE
  (w.1, r.2 ++ w.2)

/-- `read_press` (lines 227-235): 3-byte big-endian read at `PRESS_MSB`,
masked and shifted to the 20-bit raw value. -/
def read_press (d : Device) : ℤ × List Ev :=
  (Int.ofNat ((d.press_bytes &&& 0xFFFFF0) >>> 4),
   [Ev.i2cWrite BMP280_I2C_ADDR [PRESS_MSB], Ev.i2cRead BMP280_I2C_ADDR 3])

/-- `read_temp` (lines 237-245): 3-byte big-endian read at `TEMP_MSB`,
masked and shifted to the 20-bit raw value. -/
def read_temp (d : Device) : ℤ × List Ev :=
  (Int.ofNat ((d.temp_bytes &&& 0xFFFFF0) >>> 4),
   [Ev.i2cWrite BMP280_I2C_ADDR [TEMP_MSB], Ev.i2cRead BMP280_I2C_ADDR 3])

/-- The four top-level steps of `get_measure_data`, in the order they can
occur. -/
inductive MStep where
  | readTempRaw
  | readPressRaw
  | compTempStep
  | compPressStep
deriving DecidableEq, Repr

/-- `get_measure_data` (lines 277-284), with the step each statement
performs recorded in source order: line 280 reads the raw temperature,
line 281 reads the raw pressure, line 282 compensates the temperature
(storing `t_fine`), line 283 compensates the pressure with that state. -/
def get_measure_data (s : DriverState) (d : Device) :
    Except PyErr ((ℤ × ℤ) × DriverState) × List MStep :=
  let rt := read_temp d
  let rp := read_press d
  match compensate_temp s rt.1 with
  | Except.error e =>
    (Except.error e, [MStep.readTempRaw, MStep.readPressRaw, MStep.compTempStep])
  | Except.ok (temp, s1) =>
    match compensate_press s1 rp.1 with
    | Except.error e =>
      (Except.error e,
       [MStep.readTempRaw, MStep.readPressRaw, MStep.compTempStep, MStep.compPressStep])
    | Except.ok (press, s2) =>
      (Except.ok ((temp, press), s2),
       [MStep.readTempRaw, MStep.readPressRaw, MStep.compTempStep, MStep.compPressStep])

/-- A device with all modelled registers zero, for concrete instances. -/
def dev0 : Device := ⟨0, 0, 0, 0⟩

/-- The device state of the known-vector scenario: measurement registers
holding raw temperature 519888 and raw pressure 415148 (each shifted into
the 20-bit field of the 24-bit block). -/
def dsDevice : Device := ⟨0, 0, 6642368, 8318208⟩

example : read_temp dsDevice = (519888, [Ev.i2cWrite 0x76 [0xFA], Ev.i2cRead 0x76 3]) := by
  decide
example : read_press dsDevice = (415148, [Ev.i2cWrite 0x76 [0xF7], Ev.i2cRead 0x76 3]) := by
  decide
example :
    (get_measure_data (mkState dsCalib none) dsDevice).1 =
      Except.ok ((2508, 25767233), mkState dsCalib (some 128422)) := by decide

/-- A masked-then-shifted byte is bounded by the shifted mask. -/
theorem and_shift_le (v m k : ℕ) : (v &&& m) >>> k ≤ m >>> k := by
  simp only [Nat.shiftRight_eq_div_pow]
  exact Nat.div_le_div_right Nat.and_le_right

/-- All-zero calibration set (degenerate `var1 = 0` scenario). -/
def zeroCalib : Calib := ⟨0, 0, 0, 0, 0, 0, 0, 0, 0, 0, 0, 0⟩

/-- On a loaded state, the pressure value `compensate_press` returns is the
`var1 = 0` guarded composition of `press_var1`, `press_var2`, `press_p_mid`
and `press_final`, independent of the rest of the state. -/
theorem compensate_press_map_fst (c : Calib) (tf raw_press : ℤ) :
    (compensate_press (mkState c (some tf)) raw_press).map Prod.fst =
      (if press_var1 c.dig_P1 c.dig_P2 c.dig_P3 tf = 0 then
        Except.ok 0
      else
        Except.ok (press_final c.dig_P7 c.dig_P8 c.dig_P9
          (press_p_mid (press_var1 c.dig_P1 c.dig_P2 c.dig_P3 tf)
            (press_var2 c.dig_P4 c.dig_P5 c.dig_P6 tf) raw_press))) := by
  have h : compensate_press (mkState c (some tf)) raw_press =
      if press_var1 c.dig_P1 c.dig_P2 c.dig_P3 tf = 0 then
        Except.ok (0, mkState c (some tf))
      else
        Except.ok (press_final c.dig_P7 c.dig_P8 c.dig_P9
          (press_p_mid (press_var1 c.dig_P1 c.dig_P2 c.dig_P3 tf)
            (press_var2 c.dig_P4 c.dig_P5 c.dig_P6 tf) raw_press),
          mkState c (some tf)) := rfl
  rw [h]
  split_ifs <;> rfl

/-! ## Claims -/

/-- Claim C1: fails on the code.  At the valid triple
`(osrs_t, osrs_p, mode) = (1, 0, 0)`, the byte `write_ctrl_meas` packs
(line 176 shifts `osrs_p` into bits 7:5, discarding `osrs_t`) decodes via
`read_ctrl_meas` to `(0, 0, 0)`, not `(1, 0, 0)`: the control-register
round-trip of the claim does not hold. -/
theorem ctrl_meas_roundtrip_failing_vector :
    ctrl_meas_unpack (ctrl_meas_pack 1 0 0) = (0, 0, 0) ∧
    ((0, 0, 0) : ℕ × ℕ × ℕ) ≠ (1, 0, 0) := by decide

/-- Claim C2: fails on the code.  With the valid calibration set
`P1 = 3`, `P2 = P3 = P4 = P5 = 0`, `P6 = -32768`, `P7 = P8 = P9 = 0`,
fine temperature `16905216` and raw pressure `0`, the denominator `var1`
is the nonzero `49152`, yet the intermediate computed on line 271 through
float true division (`press_p_mid`) is `586549367057066624` while the
mathematically exact quotient truncated toward zero (`press_p_spec`) is
`586549367057066666`: the step is not exact integer division. -/
theorem press_div_float_not_exact :
    press_var1 3 0 0 16905216 = 49152 ∧
    press_var2 0 0 (-32768) 16905216 = -9223372036854775808 ∧
    press_p_mid 49152 (-9223372036854775808) 0 = 586549367057066624 ∧
    press_p_spec 49152 (-9223372036854775808) 0 = 586549367057066666 ∧
    (586549367057066624 : ℤ) ≠ 586549367057066666 := by decide

/-- Claim C3: with the documented sample calibration set,
`compensate_temp` on raw temperature 519888 stores `t_fine = 128422` and
returns `2508 / 100 = 25.08` °C, and `compensate_press` on raw pressure
415148 with that fine temperature returns `25767233 / 256` Pa, which lies
in `[100653, 100654)` (concretely 100653.25… Pa). -/
theorem known_vector_scenario :
    compensate_temp (mkState dsCalib none) 519888 =
      Except.ok (2508, mkState dsCalib (some 128422)) ∧
    (2508 : ℚ) / 100 = 25.08 ∧
    compensate_press (mkState dsCalib (some 128422)) 415148 =
      Except.ok (25767233, mkState dsCalib (some 128422)) ∧
    (100653 : ℚ) ≤ 25767233 / 256 ∧ (25767233 : ℚ) / 256 < 100654 := by
  refine ⟨by decide, by norm_num, by decide, by norm_num, by norm_num⟩

/-- Claim C4: fails on the code.  On the known-vector state the step trace
of `get_measure_data` contains no temperature-compensation step before the
raw-pressure read: line 281 reads the raw pressure before line 282
compensates the temperature, contradicting the claimed ordering. -/
theorem get_measure_order_counterexample :
    ¬ ∃ i j : Fin (get_measure_data (mkState dsCalib none) dsDevice).2.length,
      (i : ℕ) < (j : ℕ) ∧
      (get_measure_data (mkState dsCalib none) dsDevice).2.get i = MStep.compTempStep ∧
      (get_measure_data (mkState dsCalib none) dsDevice).2.get j = MStep.readPressRaw := by
  decide

/-- Claim C4 (amended): whenever temperature compensation succeeds,
`get_measure_data` performs read raw temperature, then read raw pressure,
then compensate temperature, then compensate pressure — and the pressure
compensation uses exactly the state (hence the fine temperature) the
temperature compensation of the same call just produced. -/
theorem get_measure_order (s : DriverState) (d : Device) (temp : ℤ) (s1 : DriverState)
    (h : compensate_temp s (read_temp d).1 = Except.ok (temp, s1)) :
    (get_measure_data s d).2 =
      [MStep.readTempRaw, MStep.readPressRaw, MStep.compTempStep, MStep.compPressStep] ∧
    (get_measure_data s d).1 =
      (compensate_press s1 (read_press d).1).map (fun r => ((temp, r.1), r.2)) := by
  dsimp only [get_measure_data]
  rw [h]
  dsimp only
  cases hp : compensate_press s1 (read_press d).1 with
  | error e => exact ⟨rfl, rfl⟩
  | ok v =>
    obtain ⟨p, s2⟩ := v
    exact ⟨rfl, rfl⟩

/-- Witness for C4 (amended) at the known-vector state. -/
theorem get_measure_order_witness :
    (get_measure_data (mkState dsCalib none) dsDevice).2 =
      [MStep.readTempRaw, MStep.readPressRaw, MStep.compTempStep, MStep.compPressStep] ∧
    (get_measure_data (mkState dsCalib none) dsDevice).1 =
      (compensate_press (mkState dsCalib (some 128422)) (read_press dsDevice).1).map
        (fun r => ((2508, r.1), r.2)) :=
  get_measure_order (mkState dsCalib none) dsDevice 2508 (mkState dsCalib (some 128422))
    (by decide)

/-- Claim C5: on the `__init__` state (every coefficient and `t_fine`
still `None`) both compensation methods raise (`TypeError`, from
arithmetic on `None`) rather than returning a number, and even with the
calibration set loaded, `compensate_press` before any `compensate_temp`
raises because `t_fine` is still `None` (line 261). -/
theorem uninitialized_compensation_raises (raw_t raw_p : ℤ) (c : Calib) :
    compensate_temp initState raw_t = Except.error PyErr.typeError ∧
    compensate_press initState raw_p = Except.error PyErr.typeError ∧
    compensate_press (mkState c none) raw_p = Except.error PyErr.typeError :=
  ⟨rfl, rfl, rfl⟩

/-- Claim C6: for every raw pressure and every loaded calibration and fine
temperature making `var1` zero, `compensate_press` returns pressure 0
(hence 0.0 Pa after the final `float(press / 256)`) and no error. -/
theorem press_var1_zero_gives_zero (c : Calib) (tf raw_press : ℤ)
    (hz : press_var1 c.dig_P1 c.dig_P2 c.dig_P3 tf = 0) :
    compensate_press (mkState c (some tf)) raw_press =
      Except.ok (0, mkState c (some tf)) := by
  have h : compensate_press (mkState c (some tf)) raw_press =
      if press_var1 c.dig_P1 c.dig_P2 c.dig_P3 tf = 0 then
        Except.ok (0, mkState c (some tf))
      else
        Except.ok (press_final c.dig_P7 c.dig_P8 c.dig_P9
          (press_p_mid (press_var1 c.dig_P1 c.dig_P2 c.dig_P3 tf)
            (press_var2 c.dig_P4 c.dig_P5 c.dig_P6 tf) raw_press),
          mkState c (some tf)) := rfl
  rw [h, if_pos hz]

/-- Witness for C6: the all-zero calibration (`P1 = 0`) makes `var1 = 0`
and the returned pressure is 0. -/
theorem press_var1_zero_gives_zero_witness :
    compensate_press (mkState zeroCalib (some 0)) 415148 =
      Except.ok (0, mkState zeroCalib (some 0)) :=
  press_var1_zero_gives_zero zeroCalib 0 415148 (by decide)

/-- Claim C7: any oversampling value outside `[0,7]` or mode outside
`[0,3]` makes `write_ctrl_meas` raise `ValueError` with no transport
activity (empty event list); any `t_sb` or `filter` outside `[0,7]` does
the same for `write_config`; and `osrs_t = 7`, `mode = 3` (with a valid
`osrs_p`) succeeds, performing the register write on the wire. -/
theorem write_validation_and_success (d : Device) (osrs_t osrs_p mode t_sb filter : ℤ)
    (spi3w_en : Bool) :
    ((osrs_t < 0 ∨ 7 < osrs_t ∨ osrs_p < 0 ∨ 7 < osrs_p ∨ mode < 0 ∨ 3 < mode) →
      write_ctrl_meas d osrs_t osrs_p mode = (Except.error PyErr.valueError, [])) ∧
    ((t_sb < 0 ∨ 7 < t_sb ∨ filter < 0 ∨ 7 < filter) →
      write_config d t_sb filter spi3w_en = (Except.error PyErr.valueError, [])) ∧
    (0 ≤ osrs_p → osrs_p ≤ 7 →
      write_ctrl_meas d 7 osrs_p 3 =
        (Except.ok { d with ctrl_meas := ctrl_meas_pack 7 osrs_p 3 },
         [Ev.i2cWrite BMP280_I2C_ADDR [CTRL_MEAS, ctrl_meas_pack 7 osrs_p 3]])) := by
  refine ⟨?_, ?_, ?_⟩
  · intro h
    unfold write_ctrl_meas
    split_ifs <;> first | rfl | omega
  · intro h
    unfold write_config
    split_ifs <;> first | rfl | omega
  · intro h0 h7
    unfold write_ctrl_meas
    split_ifs <;> first | rfl | omega

/-- Witness for C7: `osrs_t = 8` and `mode = 4` are rejected with no
transport event, `t_sb = 8` likewise for the config register, and
`osrs_t = 7`, `mode = 3` performs the write. -/
theorem write_validation_and_success_witness :
    write_ctrl_meas dev0 8 0 4 = (Except.error PyErr.valueError, []) ∧
    write_config dev0 8 0 true = (Except.error PyErr.valueError, []) ∧
    write_ctrl_meas dev0 7 0 3 =
      (Except.ok { dev0 with ctrl_meas := ctrl_meas_pack 7 0 3 },
       [Ev.i2cWrite BMP280_I2C_ADDR [CTRL_MEAS, ctrl_meas_pack 7 0 3]]) :=
  ⟨(write_validation_and_success dev0 8 0 4 8 0 true).1 (by omega),
   (write_validation_and_success dev0 8 0 4 8 0 true).2.1 (by omega),
   (write_validation_and_success dev0 8 0 4 8 0 true).2.2 (by omega) (by omega)⟩

/-- Claim C8: fails on the code.  With the control register holding `0x20`
(fields `osrs_t = 1`, `osrs_p = 0`, mode Sleep), `normal_mode` rewrites
the register to `0x03`: the `osrs_t` field has changed from 1 to 0
(collapsed into `osrs_p` by line 176), so mode transitions do not
preserve the oversampling fields in general. -/
theorem normal_mode_osrs_t_failing_vector :
    ctrl_meas_unpack 0x20 = (1, 0, 0) ∧
    (normal_mode { dev0 with ctrl_meas := 0x20 }).1 =
      Except.ok { dev0 with ctrl_meas := 0x03 } ∧
    ctrl_meas_unpack 0x03 = (0, 0, 3) ∧
    (0 : ℕ) ≠ 1 := by decide

/-- Claim C9: the compensation methods are deterministic pure functions of
their documented inputs: on loaded states, the temperature result and the
stored fine temperature depend only on `T1..T3` and the raw reading (not
on the pressure coefficients or the previous `t_fine`), and the pressure
result depends only on `P1..P9`, the stored fine temperature and the raw
reading (not on the temperature coefficients). -/
theorem compensation_deterministic (c1 c2 : Calib) (tf1 tf2 raw_t raw_p : ℤ)
    (hrt0 : 0 ≤ raw_t) (hrt1 : raw_t < 2 ^ 20)
    (hrp0 : 0 ≤ raw_p) (hrp1 : raw_p < 2 ^ 20) :
    (c1.dig_T1 = c2.dig_T1 → c1.dig_T2 = c2.dig_T2 → c1.dig_T3 = c2.dig_T3 →
      (compensate_temp (mkState c1 (some tf1)) raw_t).map Prod.fst =
        (compensate_temp (mkState c2 (some tf2)) raw_t).map Prod.fst ∧
      (compensate_temp (mkState c1 (some tf1)) raw_t).map (fun r => r.2.t_fine) =
        (compensate_temp (mkState c2 (some tf2)) raw_t).map (fun r => r.2.t_fine)) ∧
    (c1.dig_P1 = c2.dig_P1 → c1.dig_P2 = c2.dig_P2 → c1.dig_P3 = c2.dig_P3 →
      c1.dig_P4 = c2.dig_P4 → c1.dig_P5 = c2.dig_P5 → c1.dig_P6 = c2.dig_P6 →
      c1.dig_P7 = c2.dig_P7 → c1.dig_P8 = c2.dig_P8 → c1.dig_P9 = c2.dig_P9 →
      tf1 = tf2 →
      (compensate_press (mkState c1 (some tf1)) raw_p).map Prod.fst =
        (compensate_press (mkState c2 (some tf2)) raw_p).map Prod.fst) := by
  obtain ⟨a1, a2, a3, a4, a5, a6, a7, a8, a9, a10, a11, a12⟩ := c1
  obtain ⟨b1, b2, b3, b4, b5, b6, b7, b8, b9, b10, b11, b12⟩ := c2
  refine ⟨fun h1 h2 h3 => ?_, fun q1 q2 q3 q4 q5 q6 q7 q8 q9 htf => ?_⟩
  · cases h1; cases h2; cases h3
    exact ⟨rfl, rfl⟩
  · cases q1; cases q2; cases q3; cases q4; cases q5; cases q6; cases q7; cases q8
    cases q9; cases htf
    rw [compensate_press_map_fst, compensate_press_map_fst]

/-- Witness for C9: states differing only in a pressure coefficient give
the same temperature output; states differing only in a temperature
coefficient (and with equal stored fine temperature) give the same
pressure output. -/
theorem compensation_deterministic_witness :
    ((compensate_temp (mkState dsCalib (some 0)) 519888).map Prod.fst =
      (compensate_temp (mkState { dsCalib with dig_P1 := 1 } (some 7)) 519888).map Prod.fst ∧
     (compensate_temp (mkState dsCalib (some 0)) 519888).map (fun r => r.2.t_fine) =
      (compensate_temp (mkState { dsCalib with dig_P1 := 1 } (some 7)) 519888).map
        (fun r => r.2.t_fine)) ∧
    (compensate_press (mkState dsCalib (some 128422)) 415148).map Prod.fst =
      (compensate_press (mkState { dsCalib with dig_T1 := 1 } (some 128422)) 415148).map
        Prod.fst :=
  ⟨(compensation_deterministic dsCalib { dsCalib with dig_P1 := 1 } 0 7 519888 415148
      (by decide) (by decide) (by decide) (by decide)).1 rfl rfl rfl,
   (compensation_deterministic dsCalib { dsCalib with dig_T1 := 1 } 128422 128422 519888
      415148 (by decide) (by decide) (by decide) (by decide)).2
     rfl rfl rfl rfl rfl rfl rfl rfl rfl rfl⟩

/-- Claim C10: for every register byte value up to 255, the fields decoded
by `read_ctrl_meas` are in range (`osrs_t ≤ 7`, `osrs_p ≤ 7`, `mode ≤ 3`)
and the fields decoded by `read_config` are in range (`t_sb ≤ 7`,
`filter ≤ 7`, `spi3w_en ≤ 1`): the masking guarantees in-range read-back
for arbitrary device responses. -/
theorem readback_fields_in_range (v : ℕ) (hv : v ≤ 255) :
    (ctrl_meas_unpack v).1 ≤ 7 ∧ (ctrl_meas_unpack v).2.1 ≤ 7 ∧
    (ctrl_meas_unpack v).2.2 ≤ 3 ∧
    (config_unpack v).1 ≤ 7 ∧ (config_unpack v).2.1 ≤ 7 ∧
    (config_unpack v).2.2 ≤ 1 :=
  ⟨le_trans (and_shift_le v 0xE0 5) (by decide),
   le_trans (and_shift_le v 0x1C 2) (by decide),
   le_trans (and_shift_le v 0x03 0) (by decide),
   le_trans (and_shift_le v 0xE0 5) (by decide),
   le_trans (and_shift_le v 0x1C 2) (by decide),
   le_trans (and_shift_le v 0x01 0) (by decide)⟩

/-- Witness for C10 at the extreme byte 255. -/
theorem readback_fields_in_range_witness :
    (ctrl_meas_unpack 255).1 ≤ 7 ∧ (ctrl_meas_unpack 255).2.1 ≤ 7 ∧
    (ctrl_meas_unpack 255).2.2 ≤ 3 ∧
    (config_unpack 255).1 ≤ 7 ∧ (config_unpack 255).2.1 ≤ 7 ∧
    (config_unpack 255).2.2 ≤ 1 :=
  readback_fields_in_range 255 (by decide)

end BMP280
